import Mathlib

/-!
Verification of the engagement and notification subsystem of a blogging
platform (Django application: `blog/models.py`, `blog/views.py`,
`blog/serializers.py`).  Persistent tables are embedded as Lean lists of
records, model methods as pure functions on those records, and view actions
as functions returning the updated records together with an explicit result
value standing for the HTTP response kind.
-/

/-- Post status choices (`BlogPost.STATUS_CHOICES` in models.py). -/
inductive Status where
  | draft
  | published
  | archived
deriving DecidableEq

/-- Subscription type choices (`Subscription.SUBSCRIPTION_TYPES`). -/
inductive SubscriptionType where
  | author
  | category
deriving DecidableEq

/-- Notification type choices (`Notification.NOTIFICATION_TYPES`). -/
inductive NotificationType where
  | new_post
  | new_comment
  | new_like
  | new_rating
deriving DecidableEq

/-- The fields of `BlogPost` (models.py) that the verified operations read or
write.  Users and categories are represented by their numeric ids; times by
naturals. -/
structure BlogPost where
  id : Nat
  title : String
  slug : String
  content : String
  excerpt : String
  author : Nat
  category : Option Nat
  status : Status
  published_date : Option Nat
  scheduled_publish : Option Nat
  views_count : Int
deriving DecidableEq

/-- A row of the `PostLike` table (unique on the (post, user) pair). -/
structure PostLike where
  post : Nat
  user : Nat
deriving DecidableEq

/-- A row of the `Subscription` table. -/
structure Subscription where
  id : Nat
  subscriber : Nat
  subscription_type : SubscriptionType
  author : Option Nat
  category : Option Nat
  is_active : Bool
deriving DecidableEq

/-- A row of the `Notification` table. -/
structure Notification where
  user : Nat
  notification_type : NotificationType
  post : Option Nat
  sender : Option Nat
  message : String
  is_read : Bool
deriving DecidableEq

/-- Lookup data owned by the excluded identity and category stores: the
username of a user id and the name of a category id, used only to render
notification messages. -/
structure Env where
  username : Nat → String
  category_name : Nat → String

/-- `BlogPost.publish` (models.py lines 78-84): from `draft`, set status to
`published` and `published_date` to the current time and return `True`;
from any other status change nothing and return `False`. -/
def BlogPost.publish (p : BlogPost) (now : Nat) : BlogPost × Bool :=
  if p.status = Status.draft then
    ({ p with status := Status.published, published_date := some now }, true)
  else
    (p, false)

/-- `BlogPost.unpublish` (models.py lines 86-91): from `published`, revert the
status to `draft` (touching no other field) and return `True`; otherwise
change nothing and return `False`. -/
def BlogPost.unpublish (p : BlogPost) : BlogPost × Bool :=
  if p.status = Status.published then
    ({ p with status := Status.draft }, true)
  else
    (p, false)

/-- `BlogPost.increment_views` (models.py lines 115-117): add 1 to
`views_count` unconditionally. -/
def BlogPost.increment_views (p : BlogPost) : BlogPost :=
  { p with views_count := p.views_count + 1 }

/-- Round a rational to the nearest integer, ties to the even integer: the
behaviour of Python built-in `round` on exact values. -/
def round_half_even (q : ℚ) : ℤ :=
  let n : ℤ := ⌊q⌋
  let r : ℚ := q - n
  if r < 1 / 2 then n
  else if 1 / 2 < r then n + 1
  else if n % 2 = 0 then n else n + 1

/-- Python `round(x, 2)` on an exact rational value. -/
def python_round2 (q : ℚ) : ℚ :=
  (round_half_even (q * 100) : ℚ) / 100

/-- `BlogPost.average_rating` (models.py lines 102-105): the aggregate
`Avg(rating)` over the ratings of the post is `None` when there are no
rating rows, in which case (and also when the average is the falsy `0`)
the property returns `0`; otherwise it returns the average rounded to two
decimals.  The stored `rating` column values of the post are passed as a
list of integers. -/
def BlogPost.average_rating (ratings : List ℤ) : ℚ :=
  if ratings.isEmpty then 0
  else
    let avg : ℚ := (ratings.map (fun r => (r : ℚ))).sum / ratings.length
    if avg = 0 then 0 else python_round2 avg

/-- Modelled from the spec: the mean of the stored rating values, stated
directly from the words "average_rating = mean of Rating.rating for post",
to be compared with the implementation `BlogPost.average_rating`. -/
def spec_mean (ratings : List ℤ) : ℚ :=
  (ratings.map (fun r => (r : ℚ))).sum / ratings.length

/-- `BlogPostSerializer.validate_title` (serializers.py lines 213-216): a
title shorter than 5 characters is rejected with a `ValidationError`. -/
def validate_title (value : String) : Except String String :=
  if value.length < 5 then
    Except.error "Title must be at least 5 characters long."
  else
    Except.ok value

/-- `BlogPostSerializer.validate_content` (serializers.py): content shorter
than 20 characters is rejected with a `ValidationError`. -/
def validate_content (value : String) : Except String String :=
  if value.length < 20 then
    Except.error "Content must be at least 20 characters long."
  else
    Except.ok value

/-- The REST-framework create flow for `BlogPostViewSet`: the serializer runs
its field validators and the new row is saved only when every validator
passes; a `ValidationError` aborts the request and stores nothing. -/
def serializer_create (posts : List BlogPost) (p : BlogPost) :
    List BlogPost × Bool :=
  match validate_title p.title, validate_content p.content with
  | Except.ok _, Except.ok _ => (posts ++ [p], true)
  | _, _ => (posts, false)

/-- Number of stored `PostLike` rows for a (post, user) pair. -/
def count_pair_likes (likes : List PostLike) (pid uid : Nat) : Nat :=
  (likes.filter (fun l => l.post == pid && l.user == uid)).length

/-- Result of the `like` view action: HTTP 201 on a fresh insert, HTTP 400
("You already liked this post.") when the row already exists. -/
inductive LikeRes where
  | created
  | already
deriving DecidableEq

/-- Outcome of the `like` view action: the `PostLike` table afterward, the
`Notification` rows the action created, and the response kind. -/
structure LikeOutcome where
  likes : List PostLike
  notifs : List Notification
  res : LikeRes
deriving DecidableEq

/-- `BlogPostViewSet.like` (views.py lines 141-165): `get_or_create` on the
(post, user) pair; when the row already exists answer HTTP 400 and touch
nothing; on a fresh insert, create a `new_like` notification to the author
of the post unless the liker is that author, and answer HTTP 201. -/
def like_action (env : Env) (likes : List PostLike) (p : BlogPost)
    (u : Nat) : LikeOutcome :=
  if likes.any (fun l => l.post == p.id && l.user == u) then
    ⟨likes, [], LikeRes.already⟩
  else
    let created : List Notification :=
      if p.author ≠ u then
        [⟨p.author, NotificationType.new_like, some p.id, some u,
          env.username u ++ " liked your post \x27" ++ p.title ++ "\x27",
          false⟩]
      else []
    ⟨likes ++ [⟨p.id, u⟩], created, LikeRes.created⟩

/-- Filter of `_notify_subscribers` for author subscriptions (views.py lines
337-341): active rows of type `author` whose author is the author of the
post. -/
def is_active_author_sub (aid : Nat) (s : Subscription) : Bool :=
  s.author == some aid && s.subscription_type == SubscriptionType.author
    && s.is_active

/-- Filter of `_notify_subscribers` for category subscriptions (views.py
lines 354-358): active rows of type `category` on the category of the
post. -/
def is_active_category_sub (cid : Nat) (s : Subscription) : Bool :=
  s.category == some cid && s.subscription_type == SubscriptionType.category
    && s.is_active

/-- `BlogPostViewSet._notify_subscribers` (views.py lines 335-367): one
`new_post` notification per active author subscription, then, when the post
has a category, one more per active category subscription.  Returns the
created `Notification` rows in creation order; nothing is deduplicated. -/
def notify_subscribers (env : Env) (subs : List Subscription)
    (p : BlogPost) : List Notification :=
  let author_notifs :=
    (subs.filter (is_active_author_sub p.author)).map fun s =>
      (⟨s.subscriber, NotificationType.new_post, some p.id, some p.author,
        env.username p.author ++ " published a new post: \x27" ++ p.title
          ++ "\x27", false⟩ : Notification)
  let category_notifs :=
    match p.category with
    | some cid =>
        (subs.filter (is_active_category_sub cid)).map fun s =>
          (⟨s.subscriber, NotificationType.new_post, some p.id,
            some p.author,
            "New post in " ++ env.category_name cid ++ ": \x27" ++ p.title
              ++ "\x27", false⟩ : Notification)
    | none => []
  author_notifs ++ category_notifs

/-- Response kind of the `publish` and `unpublish` view actions: HTTP 403
when the caller is not the author, HTTP 400 on an illegal transition, and
HTTP 200 on the success path. -/
inductive ActionRes where
  | forbidden
  | invalid
  | success
deriving DecidableEq

/-- Outcome of the `publish` view action: the post afterward, the
`Notification` rows created by the fan-out, and the response kind. -/
structure PublishOutcome where
  post : BlogPost
  notifs : List Notification
  res : ActionRes
deriving DecidableEq

/-- `BlogPostViewSet.publish` (views.py lines 74-99): reject a caller other
than the author with HTTP 403; reject a post whose status is already
`published` with HTTP 400; otherwise call the model `publish` (a no-op
returning `False` outside `draft`), run the subscriber fan-out, and answer
HTTP 200. -/
def publish_action (env : Env) (subs : List Subscription) (p : BlogPost)
    (u : Nat) (now : Nat) : PublishOutcome :=
  if p.author ≠ u then ⟨p, [], ActionRes.forbidden⟩
  else if p.status = Status.published then ⟨p, [], ActionRes.invalid⟩
  else
    let p2 := (p.publish now).1
    ⟨p2, notify_subscribers env subs p2, ActionRes.success⟩

/-- Outcome of the `unpublish` view action. -/
structure UnpublishOutcome where
  post : BlogPost
  res : ActionRes
deriving DecidableEq

/-- `BlogPostViewSet.unpublish` (views.py lines 101-122): reject a caller
other than the author with HTTP 403; reject a post whose status is not
`published` with HTTP 400; otherwise call the model `unpublish` and answer
HTTP 200. -/
def unpublish_action (p : BlogPost) (u : Nat) : UnpublishOutcome :=
  if p.author ≠ u then ⟨p, ActionRes.forbidden⟩
  else if p.status ≠ Status.published then ⟨p, ActionRes.invalid⟩
  else ⟨(p.unpublish).1, ActionRes.success⟩

/-- `BlogPostViewSet.retrieve` (views.py lines 64-69): the API detail view
increments the view counter unconditionally; the viewer (if any) is not
consulted. -/
def retrieve (p : BlogPost) (_viewer : Option Nat) : BlogPost :=
  p.increment_views

/-- `post_detail_view` (views.py lines 820-831): the template detail view
increments the view counter unless the viewer is authenticated and is the
author of the post. -/
def post_detail_view (p : BlogPost) (viewer : Option Nat) : BlogPost :=
  match viewer with
  | none => p.increment_views
  | some u => if u ≠ p.author then p.increment_views else p

/-- Lookup predicate of `subscribe_author`: the `get_or_create` keyword
arguments (views.py lines 650-655) are subscriber, author and
subscription_type; `is_active` is only a default for a fresh row. -/
def author_sub_match (u a : Nat) (s : Subscription) : Bool :=
  s.subscriber == u && s.author == some a
    && s.subscription_type == SubscriptionType.author

/-- Response kind of the `subscribe_author` view action. -/
inductive SubscribeRes where
  | not_found
  | self_sub
  | already
  | ok
deriving DecidableEq

/-- Outcome of the `subscribe_author` view action. -/
structure SubscribeOutcome where
  subs : List Subscription
  res : SubscribeRes
deriving DecidableEq

/-- `SubscriptionViewSet.subscribe_author` (views.py lines 627-668): 404 when
the author id resolves to no user; 400 on self-subscription; otherwise
`get_or_create` on (subscriber, author, type=author): an existing active row
answers HTTP 400 "Already subscribed" and changes nothing, an existing
inactive row is reactivated in place, and with no existing row a fresh
active row is inserted (its id supplied by the store as `next_id`). -/
def subscribe_author (subs : List Subscription) (u a : Nat)
    (author_exists : Bool) (next_id : Nat) : SubscribeOutcome :=
  if !author_exists then ⟨subs, SubscribeRes.not_found⟩
  else if a == u then ⟨subs, SubscribeRes.self_sub⟩
  else
    match subs.find? (author_sub_match u a) with
    | some s =>
        if s.is_active then ⟨subs, SubscribeRes.already⟩
        else
          ⟨subs.map (fun t =>
              if t.id == s.id then { t with is_active := true } else t),
            SubscribeRes.ok⟩
    | none =>
        ⟨subs ++ [⟨next_id, u, SubscriptionType.author, some a, none, true⟩],
          SubscribeRes.ok⟩

/-- `SubscriptionViewSet.unsubscribe` (views.py lines 707-716): set
`is_active` to `False` on the addressed subscription row (soft delete; the
row is kept). -/
def unsubscribe (subs : List Subscription) (sid : Nat) : List Subscription :=
  subs.map (fun t => if t.id == sid then { t with is_active := false } else t)

/-- A concrete environment for evaluating the operations on examples. -/
def env0 : Env :=
  ⟨fun _ => "alice", fun _ => "tech"⟩

/-- A concrete draft post (author 3, category 5) used to evaluate the
operations on examples. -/
def draft_post : BlogPost :=
  { id := 11, title := "A draft post", slug := "a-draft-post",
    content := "Enough content to satisfy every length validator.",
    excerpt := "", author := 3, category := some 5,
    status := Status.draft, published_date := none,
    scheduled_publish := none, views_count := 0 }

/-- A concrete published post (author 1) used to evaluate the operations on
examples. -/
def published_post : BlogPost :=
  { id := 12, title := "A published post", slug := "a-published-post",
    content := "Enough content to satisfy every length validator.",
    excerpt := "", author := 1, category := none,
    status := Status.published, published_date := some 40,
    scheduled_publish := none, views_count := 7 }

/-- A concrete archived post (author 1, category 5) used to evaluate the
operations on examples. -/
def archived_post : BlogPost :=
  { id := 13, title := "An archived post", slug := "an-archived-post",
    content := "Enough content to satisfy every length validator.",
    excerpt := "", author := 1, category := some 5,
    status := Status.archived, published_date := none,
    scheduled_publish := none, views_count := 0 }

/-- A concrete creation input whose title "Hi" has 2 characters. -/
def post_hi : BlogPost :=
  { id := 14, title := "Hi", slug := "hi",
    content := "Enough content to satisfy every length validator.",
    excerpt := "", author := 2, category := none,
    status := Status.draft, published_date := none,
    scheduled_publish := none, views_count := 0 }

/-- A concrete subscription table: user 7 actively subscribed both to author
3 and to category 5. -/
def subs0 : List Subscription :=
  [⟨1, 7, SubscriptionType.author, some 3, none, true⟩,
   ⟨2, 7, SubscriptionType.category, none, some 5, true⟩]

/-- Rounding half to even fixes every integer. -/
theorem round_half_even_intCast (n : ℤ) : round_half_even (n : ℚ) = n := by
  simp [round_half_even, Int.floor_intCast]

/-- C5: `average_rating` equals the mean of the stored rating values rounded
to two decimals whenever at least one rating exists, is `0` with no
ratings, and on the concrete ledger [4, 5] returns 4.5. -/
theorem C5_average_rating (rs : List ℤ) (h : rs ≠ []) :
    BlogPost.average_rating rs = python_round2 (spec_mean rs) ∧
    BlogPost.average_rating [4, 5] = 9 / 2 ∧
    BlogPost.average_rating [] = 0 := by
  refine ⟨?_, ?_, ?_⟩
  · have hne : rs.isEmpty = false := by
      cases rs with
      | nil => exact absurd rfl h
      | cons a t => rfl
    unfold BlogPost.average_rating spec_mean
    rw [hne]
    simp only [Bool.false_eq_true, if_false]
    by_cases hz : ((rs.map (fun r => (r : ℚ))).sum / (rs.length : ℚ)) = 0
    · rw [if_pos hz, hz]
      unfold python_round2
      rw [show (0 : ℚ) * 100 = ((0 : ℤ) : ℚ) by norm_num,
        round_half_even_intCast]
      norm_num
    · rw [if_neg hz]
  · unfold BlogPost.average_rating
    norm_num [python_round2]
    rw [show (450 : ℚ) = ((450 : ℤ) : ℚ) by norm_num, round_half_even_intCast]
    norm_num
  · unfold BlogPost.average_rating
    norm_num

/-- C5 witness: the general rounding equation applied to the ledger [4, 5]. -/
theorem C5_average_rating_witness :
    BlogPost.average_rating [4, 5] = python_round2 (spec_mean [4, 5]) ∧
    BlogPost.average_rating [4, 5] = 9 / 2 ∧
    BlogPost.average_rating [] = 0 :=
  C5_average_rating [4, 5] (by decide)

/-- C9: a creation input whose title is shorter than 5 characters is rejected
by `validate_title` with a `ValidationError` and no post is stored. -/
theorem C9_short_title_rejected (posts : List BlogPost) (p : BlogPost)
    (h : p.title.length < 5) :
    serializer_create posts p = (posts, false) ∧
    validate_title p.title =
      Except.error "Title must be at least 5 characters long." := by
  have hv : validate_title p.title =
      Except.error "Title must be at least 5 characters long." := by
    unfold validate_title
    rw [if_pos h]
  refine ⟨?_, hv⟩
  unfold serializer_create
  rw [hv]

/-- C9 witness: creating a post titled "Hi" (2 characters) stores nothing
and reports the title validation error. -/
theorem C9_short_title_rejected_witness :
    serializer_create [] post_hi = ([], false) ∧
    validate_title post_hi.title =
      Except.error "Title must be at least 5 characters long." :=
  C9_short_title_rejected [] post_hi (by decide)

/-- C8: for the author, `unpublish` on a published post reverts the status
to `draft` and changes no other field (in particular `published_date` keeps
its previous value); on a post in any other status it answers
`InvalidTransition` (HTTP 400) and leaves the post unchanged. -/
theorem C8_unpublish_frame (p : BlogPost) (u : Nat) (hauth : p.author = u) :
    (p.status = Status.published →
      unpublish_action p u =
        ⟨{ p with status := Status.draft }, ActionRes.success⟩ ∧
      (unpublish_action p u).post.published_date = p.published_date ∧
      (unpublish_action p u).post.title = p.title ∧
      (unpublish_action p u).post.views_count = p.views_count) ∧
    (p.status ≠ Status.published →
      unpublish_action p u = ⟨p, ActionRes.invalid⟩) := by
  constructor
  · intro hs
    have he : unpublish_action p u =
        ⟨{ p with status := Status.draft }, ActionRes.success⟩ := by
      simp [unpublish_action, BlogPost.unpublish, hauth, hs]
    exact ⟨he, by rw [he], by rw [he], by rw [he]⟩
  · intro hs
    simp [unpublish_action, hauth, hs]

/-- C8 witness: the unpublish frame property evaluated on a concrete
published post and on a concrete draft post. -/
theorem C8_unpublish_frame_witness :
    (published_post.status = Status.published →
      unpublish_action published_post 1 =
        ⟨{ published_post with status := Status.draft },
         ActionRes.success⟩ ∧
      (unpublish_action published_post 1).post.published_date =
        published_post.published_date ∧
      (unpublish_action published_post 1).post.title =
        published_post.title ∧
      (unpublish_action published_post 1).post.views_count =
        published_post.views_count) ∧
    (published_post.status ≠ Status.published →
      unpublish_action published_post 1 =
        ⟨published_post, ActionRes.invalid⟩) :=
  C8_unpublish_frame published_post 1 (by decide)

/-- C1 counterexample: for a concrete archived post, the publish action
invoked by its author does not fail with `InvalidTransition`: it answers
success (HTTP 200) while leaving the post unchanged. -/
theorem C1_publish_counterexample :
    (publish_action env0 [] archived_post 1 50).res = ActionRes.success ∧
    (publish_action env0 [] archived_post 1 50).post = archived_post := by
  constructor <;> rfl

/-- C1 (amended): for the author, publishing a draft sets the status to
`published` and `published_date` to the current time and runs the fan-out;
publishing an already-published post fails with `InvalidTransition`
(HTTP 400) and leaves the post unchanged; publishing an archived post
leaves the post unchanged (the model `publish` is a no-op) but the action
reports success rather than `InvalidTransition`. -/
theorem C1_publish_transitions (env : Env) (subs : List Subscription)
    (p : BlogPost) (u now : Nat) (hauth : p.author = u) :
    (p.status = Status.draft →
      publish_action env subs p u now =
        ⟨{ p with status := Status.published, published_date := some now },
          notify_subscribers env subs
            { p with status := Status.published,
                     published_date := some now },
          ActionRes.success⟩) ∧
    (p.status = Status.published →
      publish_action env subs p u now = ⟨p, [], ActionRes.invalid⟩) ∧
    (p.status = Status.archived →
      (publish_action env subs p u now).post = p ∧
      (publish_action env subs p u now).res = ActionRes.success) := by
  refine ⟨fun hs => ?_, fun hs => ?_, fun hs => ?_⟩ <;>
    simp [publish_action, BlogPost.publish, hauth, hs]

/-- C1 witness: the publish transition property evaluated on a concrete
draft post owned by user 3. -/
theorem C1_publish_transitions_witness :
    (draft_post.status = Status.draft →
      publish_action env0 subs0 draft_post 3 50 =
        ⟨{ draft_post with status := Status.published,
                           published_date := some 50 },
          notify_subscribers env0 subs0
            { draft_post with status := Status.published,
                              published_date := some 50 },
          ActionRes.success⟩) ∧
    (draft_post.status = Status.published →
      publish_action env0 subs0 draft_post 3 50 =
        ⟨draft_post, [], ActionRes.invalid⟩) ∧
    (draft_post.status = Status.archived →
      (publish_action env0 subs0 draft_post 3 50).post = draft_post ∧
      (publish_action env0 subs0 draft_post 3 50).res =
        ActionRes.success) :=
  C1_publish_transitions env0 subs0 draft_post 3 50 (by decide)

/-- C7 counterexample: the API detail view `retrieve` increments the view
counter even when the viewer is the author of the post: on a concrete post
with 7 views owned by user 1, a retrieve by user 1 yields 8 views, where
the claim demands the increment be skipped. -/
theorem C7_retrieve_counterexample :
    published_post.author = 1 ∧
    published_post.views_count = 7 ∧
    (retrieve published_post (some 1)).views_count = 8 := by
  refine ⟨rfl, rfl, rfl⟩

/-- C7 (amended): `increment_views` adds exactly 1 to the view counter and
never fails; the template detail view `post_detail_view` skips the
increment when the authenticated viewer is the author and increments for
any other viewer and for anonymous viewers; the API detail view `retrieve`
increments unconditionally, even for the author. -/
theorem C7_increment_views (p : BlogPost) (u : Nat) (h : u ≠ p.author) :
    (BlogPost.increment_views p).views_count = p.views_count + 1 ∧
    post_detail_view p (some u) = p.increment_views ∧
    post_detail_view p none = p.increment_views ∧
    post_detail_view p (some p.author) = p ∧
    retrieve p (some p.author) = p.increment_views := by
  refine ⟨rfl, ?_, rfl, ?_, rfl⟩
  · simp [post_detail_view, h]
  · simp [post_detail_view]

/-- C7 witness: the view-count property evaluated on a concrete post owned
by user 1 and a concrete distinct viewer 2. -/
theorem C7_increment_views_witness :
    (BlogPost.increment_views published_post).views_count =
      published_post.views_count + 1 ∧
    post_detail_view published_post (some 2) =
      published_post.increment_views ∧
    post_detail_view published_post none =
      published_post.increment_views ∧
    post_detail_view published_post (some published_post.author) =
      published_post ∧
    retrieve published_post (some published_post.author) =
      published_post.increment_views :=
  C7_increment_views published_post 2 (by decide)

/-- C10: invoking the publish action as the author of an archived post
leaves the post entirely unchanged (the model `publish` returns `False`),
yet the action reports success and still runs the fan-out, creating one
`new_post` notification per active author subscription and per active
subscription to the category of the post. -/
theorem C10_archived_publish_fanout (env : Env) (subs : List Subscription)
    (p : BlogPost) (u now cid : Nat) (hauth : p.author = u)
    (hs : p.status = Status.archived) (hc : p.category = some cid) :
    (publish_action env subs p u now).post = p ∧
    (publish_action env subs p u now).res = ActionRes.success ∧
    (publish_action env subs p u now).notifs =
      notify_subscribers env subs p ∧
    (notify_subscribers env subs p).map (fun n => n.user) =
      (subs.filter (is_active_author_sub p.author)).map
          (fun s => s.subscriber) ++
        (subs.filter (is_active_category_sub cid)).map
          (fun s => s.subscriber) ∧
    (notify_subscribers env subs p).all
      (fun n => n.notification_type == NotificationType.new_post) = true := by
  have hnoop : (p.publish now).1 = p := by
    simp [BlogPost.publish, hs]
  refine ⟨?_, ?_, ?_, ?_, ?_⟩
  · simp [publish_action, hauth, hs, hnoop]
  · simp [publish_action, hauth, hs]
  · simp [publish_action, hauth, hs, hnoop]
  · unfold notify_subscribers
    rw [hc]
    simp only [List.map_append, List.map_map]
    rfl
  · unfold notify_subscribers
    rw [hc, List.all_eq_true]
    intro n hn
    rcases List.mem_append.mp hn with h1 | h1 <;>
      · rcases List.mem_map.mp h1 with ⟨s, hsmem, rfl⟩
        simp

/-- C10 witness: the archived-publish behaviour evaluated on a concrete
archived post of author 1 with category 5, with one active author
subscription and one active category subscription. -/
theorem C10_archived_publish_fanout_witness :
    (publish_action env0
        [⟨1, 7, SubscriptionType.author, some 1, none, true⟩,
         ⟨2, 8, SubscriptionType.category, none, some 5, true⟩]
        archived_post 1 60).post = archived_post ∧
    (publish_action env0
        [⟨1, 7, SubscriptionType.author, some 1, none, true⟩,
         ⟨2, 8, SubscriptionType.category, none, some 5, true⟩]
        archived_post 1 60).res = ActionRes.success ∧
    (publish_action env0
        [⟨1, 7, SubscriptionType.author, some 1, none, true⟩,
         ⟨2, 8, SubscriptionType.category, none, some 5, true⟩]
        archived_post 1 60).notifs =
      notify_subscribers env0
        [⟨1, 7, SubscriptionType.author, some 1, none, true⟩,
         ⟨2, 8, SubscriptionType.category, none, some 5, true⟩]
        archived_post ∧
    (notify_subscribers env0
        [⟨1, 7, SubscriptionType.author, some 1, none, true⟩,
         ⟨2, 8, SubscriptionType.category, none, some 5, true⟩]
        archived_post).map (fun n => n.user) =
      ([⟨1, 7, SubscriptionType.author, some 1, none, true⟩,
        ⟨2, 8, SubscriptionType.category, none, some 5, true⟩].filter
          (is_active_author_sub archived_post.author)).map
          (fun s => s.subscriber) ++
        ([⟨1, 7, SubscriptionType.author, some 1, none, true⟩,
          ⟨2, 8, SubscriptionType.category, none, some 5, true⟩].filter
          (is_active_category_sub 5)).map (fun s => s.subscriber) ∧
    (notify_subscribers env0
        [⟨1, 7, SubscriptionType.author, some 1, none, true⟩,
         ⟨2, 8, SubscriptionType.category, none, some 5, true⟩]
        archived_post).all
      (fun n => n.notification_type == NotificationType.new_post) = true :=
  C10_archived_publish_fanout env0
    [⟨1, 7, SubscriptionType.author, some 1, none, true⟩,
     ⟨2, 8, SubscriptionType.category, none, some 5, true⟩]
    archived_post 1 60 5 (by decide) (by decide) (by decide)

/-- With no stored row for the pair, no list element satisfies the pair
predicate used by `get_or_create`. -/
theorem any_pair_false_of_count_zero (likes : List PostLike) (pid uid : Nat)
    (h : count_pair_likes likes pid uid = 0) :
    likes.any (fun l => l.post == pid && l.user == uid) = false := by
  unfold count_pair_likes at h
  have hfil := List.length_eq_zero.mp h
  rw [List.any_eq_false]
  intro x hx
  have := List.filter_eq_nil_iff.mp hfil x hx
  simpa using this

/-- C2: starting from a state with no `PostLike` row for the pair, the first
`like` call inserts exactly one row and answers created (HTTP 201), and the
second identical call inserts nothing, leaving exactly one stored row, and
reports `AlreadyExists` (HTTP 400). -/
theorem C2_like_twice (env : Env) (likes : List PostLike) (p : BlogPost)
    (u : Nat) (h : count_pair_likes likes p.id u = 0) :
    (like_action env likes p u).res = LikeRes.created ∧
    count_pair_likes (like_action env likes p u).likes p.id u = 1 ∧
    like_action env (like_action env likes p u).likes p u =
      ⟨(like_action env likes p u).likes, [], LikeRes.already⟩ := by
  have hany := any_pair_false_of_count_zero likes p.id u h
  have hfil : likes.filter (fun l => l.post == p.id && l.user == u) = [] :=
    List.length_eq_zero.mp h
  have hstep : (like_action env likes p u).likes = likes ++ [⟨p.id, u⟩] := by
    simp [like_action, hany]
  refine ⟨?_, ?_, ?_⟩
  · simp [like_action, hany]
  · rw [hstep]
    unfold count_pair_likes
    rw [List.filter_append, hfil]
    simp
  · rw [hstep]
    unfold like_action
    rw [List.any_append]
    simp

/-- C2 witness: the double-like property evaluated on a concrete post and a
concrete user starting from an empty table. -/
theorem C2_like_twice_witness :
    (like_action env0 [] published_post 2).res = LikeRes.created ∧
    count_pair_likes (like_action env0 [] published_post 2).likes
      published_post.id 2 = 1 ∧
    like_action env0 (like_action env0 [] published_post 2).likes
        published_post 2 =
      ⟨(like_action env0 [] published_post 2).likes, [],
        LikeRes.already⟩ :=
  C2_like_twice env0 [] published_post 2 (by decide)

/-- C4: starting from a state with no `PostLike` row for the pair, a
successful first like by a user other than the author stores the row and
creates exactly the one `new_like` notification addressed to the author;
a self-like (user = author) stores the row but creates no notification. -/
theorem C4_like_notification (env : Env) (likes : List PostLike)
    (p : BlogPost) (u : Nat) (h : count_pair_likes likes p.id u = 0) :
    count_pair_likes (like_action env likes p u).likes p.id u = 1 ∧
    (p.author ≠ u →
      (like_action env likes p u).notifs =
        [⟨p.author, NotificationType.new_like, some p.id, some u,
          env.username u ++ " liked your post \x27" ++ p.title ++ "\x27",
          false⟩]) ∧
    (p.author = u → (like_action env likes p u).notifs = []) := by
  have hany := any_pair_false_of_count_zero likes p.id u h
  have hfil : likes.filter (fun l => l.post == p.id && l.user == u) = [] :=
    List.length_eq_zero.mp h
  refine ⟨?_, fun hne => ?_, fun heq => ?_⟩
  · have hstep : (like_action env likes p u).likes = likes ++ [⟨p.id, u⟩] := by
      simp [like_action, hany]
    rw [hstep]
    unfold count_pair_likes
    rw [List.filter_append, hfil]
    simp
  · simp [like_action, hany, hne]
  · simp [like_action, hany, heq]

/-- C4 witness: the like-notification property evaluated on a concrete post
of author 1 liked by user 2 (the non-self branch is the live one). -/
theorem C4_like_notification_witness :
    count_pair_likes (like_action env0 [] published_post 2).likes
      published_post.id 2 = 1 ∧
    (published_post.author ≠ 2 →
      (like_action env0 [] published_post 2).notifs =
        [⟨published_post.author, NotificationType.new_like,
          some published_post.id, some 2,
          env0.username 2 ++ " liked your post \x27"
            ++ published_post.title ++ "\x27", false⟩]) ∧
    (published_post.author = 2 →
      (like_action env0 [] published_post 2).notifs = []) :=
  C4_like_notification env0 [] published_post 2 (by decide)

/-- C3: when the author of a published post has exactly one active
author-type subscription and the post has a category with exactly one
active category-type subscription, the publish fan-out creates exactly two
`new_post` notification rows, one per subscription, with no deduplication
by recipient. -/
theorem C3_fanout_two (env : Env) (subs : List Subscription) (p : BlogPost)
    (cid : Nat) (hc : p.category = some cid)
    (ha : (subs.filter (is_active_author_sub p.author)).length = 1)
    (hcat : (subs.filter (is_active_category_sub cid)).length = 1) :
    (notify_subscribers env subs p).length = 2 ∧
    (notify_subscribers env subs p).all
      (fun n => n.notification_type == NotificationType.new_post) = true := by
  constructor
  · unfold notify_subscribers
    rw [hc]
    simp [ha, hcat]
  · unfold notify_subscribers
    rw [hc, List.all_eq_true]
    intro n hn
    rcases List.mem_append.mp hn with h1 | h1 <;>
      · rcases List.mem_map.mp h1 with ⟨s, hsmem, rfl⟩
        simp

/-- C3 witness: the two-notification fan-out evaluated on the concrete
subscription table `subs0`, where the single author subscriber and the
single category subscriber are the same user 7. -/
theorem C3_fanout_two_witness :
    (notify_subscribers env0 subs0 draft_post).length = 2 ∧
    (notify_subscribers env0 subs0 draft_post).all
      (fun n => n.notification_type == NotificationType.new_post) = true :=
  C3_fanout_two env0 subs0 draft_post 5 (by decide) (by decide) (by decide)

/-- Mapping a function that preserves a predicate commutes with `find?`. -/
theorem find_map_pred {α : Type} (f : α → α) (q : α → Bool) (l : List α)
    (hpres : ∀ x, q (f x) = q x) :
    (l.map f).find? q = (l.find? q).map f := by
  induction l with
  | nil => rfl
  | cons a t ih =>
      by_cases hq : q a = true
      · rw [List.map_cons, List.find?_cons_of_pos _ ((hpres a).trans hq),
          List.find?_cons_of_pos _ hq, Option.map_some']
      · have hq2 : q a = false := Bool.eq_false_iff.mpr hq
        have hq3 : q (f a) = false := (hpres a).trans hq2
        rw [List.map_cons, List.find?_cons_of_neg _ (by simp [hq3]),
          List.find?_cons_of_neg _ (by simp [hq2]), ih]

/-- Deactivating one row by id leaves the `get_or_create` lookup predicate
of `subscribe_author` untouched on every row. -/
theorem author_sub_match_deactivate (u a sid : Nat) (x : Subscription) :
    author_sub_match u a
      (if x.id == sid then { x with is_active := false } else x) =
      author_sub_match u a x := by
  by_cases hx : x.id == sid <;> simp [hx, author_sub_match]

/-- C6: while an active author subscription exists for the pair,
`subscribe_author` answers `AlreadyExists` (HTTP 400) and creates no row;
and `unsubscribe` followed by `subscribe_author` on the same target
reactivates the original row in place: the call succeeds, the registry row
count is unchanged, and every row carrying the original id is active
again. -/
theorem C6_resubscribe_reactivates (subs : List Subscription)
    (u a next_id : Nat) (s : Subscription)
    (hfind : subs.find? (author_sub_match u a) = some s)
    (hact : s.is_active = true) (hne : a ≠ u) :
    subscribe_author subs u a true next_id = ⟨subs, SubscribeRes.already⟩ ∧
    (subscribe_author (unsubscribe subs s.id) u a true next_id).res =
      SubscribeRes.ok ∧
    (subscribe_author (unsubscribe subs s.id) u a true next_id).subs.length
      = subs.length ∧
    (subscribe_author (unsubscribe subs s.id) u a true next_id).subs.all
      (fun t => !(t.id == s.id) || t.is_active) = true := by
  have hfind2 : (unsubscribe subs s.id).find? (author_sub_match u a) =
      some { s with is_active := false } := by
    unfold unsubscribe
    rw [find_map_pred _ _ _ (author_sub_match_deactivate u a s.id), hfind,
      Option.map_some']
    simp
  have hsubs : (subscribe_author (unsubscribe subs s.id) u a true
      next_id).subs =
      (unsubscribe subs s.id).map (fun t =>
        if t.id == s.id then { t with is_active := true } else t) := by
    simp [subscribe_author, hne, hfind2]
  refine ⟨?_, ?_, ?_, ?_⟩
  · simp [subscribe_author, hne, hfind, hact]
  · simp [subscribe_author, hne, hfind2]
  · rw [hsubs]
    simp [unsubscribe]
  · rw [hsubs]
    unfold unsubscribe
    rw [List.all_map, List.all_map, List.all_eq_true]
    intro x hx
    by_cases hid : x.id == s.id <;> simp [Function.comp, hid]

/-- C6 witness: the reactivation property evaluated on a concrete registry
holding one active subscription of user 2 to author 3. -/
theorem C6_resubscribe_reactivates_witness :
    subscribe_author [⟨10, 2, SubscriptionType.author, some 3, none, true⟩]
        2 3 true 11 =
      ⟨[⟨10, 2, SubscriptionType.author, some 3, none, true⟩],
        SubscribeRes.already⟩ ∧
    (subscribe_author
        (unsubscribe [⟨10, 2, SubscriptionType.author, some 3, none, true⟩]
          (⟨10, 2, SubscriptionType.author, some 3, none, true⟩ :
            Subscription).id)
        2 3 true 11).res = SubscribeRes.ok ∧
    (subscribe_author
        (unsubscribe [⟨10, 2, SubscriptionType.author, some 3, none, true⟩]
          (⟨10, 2, SubscriptionType.author, some 3, none, true⟩ :
            Subscription).id)
        2 3 true 11).subs.length =
      [(⟨10, 2, SubscriptionType.author, some 3, none, true⟩ :
        Subscription)].length ∧
    (subscribe_author
        (unsubscribe [⟨10, 2, SubscriptionType.author, some 3, none, true⟩]
          (⟨10, 2, SubscriptionType.author, some 3, none, true⟩ :
            Subscription).id)
        2 3 true 11).subs.all
      (fun t => !(t.id ==
        (⟨10, 2, SubscriptionType.author, some 3, none, true⟩ :
          Subscription).id) || t.is_active) = true :=
  C6_resubscribe_reactivates
    [⟨10, 2, SubscriptionType.author, some 3, none, true⟩] 2 3 11
    ⟨10, 2, SubscriptionType.author, some 3, none, true⟩
    (by decide) (by decide) (by decide)
